import Mathlib

/-!
Shallow embedding of `src/public/backend.py` (dash-finance): a minimal Flask
backend with a `users` table, a JSON `POST /login` handler, and an HTML
`/admin` handler (GET renders the list, POST attempts user creation gated by
an admin secret).

The database is modelled as a list of rows; psycopg2's connection is modelled
by a boolean availability flag plus `connOpened`/`connClosed` fields recording
whether the handler acquired a real connection and whether it called
`conn.close()` before returning.  Python truthiness on strings
(`not data.get('email')` is `True` both when the key is missing and when the
value is the empty string) is modelled by `truthy`.
-/

namespace DashFinance

/-- Modelled from the spec: werkzeug's `generate_password_hash` (library code,
not under `src/`): a one-way hash of the plaintext; modelled as an injective
tagging so that verification succeeds exactly on the original password. -/
def generate_password_hash (password : String) : String :=
  "pbkdf2-sha256$" ++ password

/-- Modelled from the spec: werkzeug's `check_password_hash` (library code,
not under `src/`): verifies a candidate password against a stored hash,
succeeding exactly when the candidate is the password that was hashed. -/
def check_password_hash (stored candidate : String) : Bool :=
  stored == generate_password_hash candidate

/-- One row of the `users` table (schema from `init_db`): `id SERIAL`,
`email UNIQUE NOT NULL`, `password_hash NOT NULL`, `name`, `photo` (nullable,
never written by any code path), `created_at` (set at insertion). -/
structure UserRow where
  id : Nat
  email : String
  password_hash : String
  name : String
  photo : Option String
  created_at : Nat
  deriving DecidableEq, Repr

/-- The `users` table: a list of rows, in insertion order. -/
abbrev DB := List UserRow

/-- `SELECT * FROM users WHERE email = %s` followed by `fetchone()`:
first row whose email matches. -/
def findByEmail (db : DB) (email : String) : Option UserRow :=
  db.find? (fun u => u.email == email)

/-- Whether an `INSERT` of this email would violate the `UNIQUE` constraint
on `users.email` (raising `psycopg2.IntegrityError`). -/
def emailExists (db : DB) (email : String) : Bool :=
  db.any (fun u => u.email == email)

/-- Python truthiness of `data.get(field)`: `None` and `""` are falsy. -/
def truthy : Option String → Bool
  | none => false
  | some s => !(s == "")

/-- The JSON object of a login request body: `email` and `password` keys,
each possibly absent. -/
structure LoginJson where
  email : Option String
  password : Option String
  deriving DecidableEq, Repr

/-- A `POST /login` request: `request.get_json()` yields `none` when there is
no parseable JSON object. -/
structure LoginRequest where
  body : Option LoginJson
  deriving DecidableEq, Repr

/-- The user object returned on successful login: only `name`, `email`,
`photo` — the response type has no password-hash field. -/
structure UserProfile where
  name : String
  email : String
  photo : String
  deriving DecidableEq, Repr

/-- The JSON response of `/login`: HTTP status plus the `success`, `error`
and `user` fields of the body. -/
structure LoginResponse where
  status : Nat
  success : Bool
  error : Option String
  user : Option UserProfile
  deriving DecidableEq, Repr

/-- Result of one `login` handler invocation: the response, the table after
the request, and the connection bookkeeping. -/
structure LoginResult where
  response : LoginResponse
  db : DB
  connOpened : Bool
  connClosed : Bool
  deriving DecidableEq, Repr

/-- The `login` handler (`@app.route('/login', methods=['POST'])`),
translated line by line from `backend.py`.  `connAvail` says whether
`get_db_connection()` succeeds. -/
def login (connAvail : Bool) (db : DB) (req : LoginRequest) : LoginResult :=
  match req.body with
  | none =>
    { response := ⟨400, false, some "Email e senha são obrigatórios.", none⟩
      db := db, connOpened := false, connClosed := false }
  | some data =>
    if !(truthy data.email) || !(truthy data.password) then
      { response := ⟨400, false, some "Email e senha são obrigatórios.", none⟩
        db := db, connOpened := false, connClosed := false }
    else if !connAvail then
      { response := ⟨500, false, some "Erro de conexão com a base de dados.", none⟩
        db := db, connOpened := false, connClosed := false }
    else
      match findByEmail db (data.email.getD "") with
      | some user =>
        if check_password_hash user.password_hash (data.password.getD "") then
          { response := ⟨200, true, none,
              some ⟨user.name, user.email, user.photo.getD ""⟩⟩
            db := db, connOpened := true, connClosed := true }
        else
          { response := ⟨401, false, some "Credenciais inválidas.", none⟩
            db := db, connOpened := true, connClosed := true }
      | none =>
        { response := ⟨401, false, some "Credenciais inválidas.", none⟩
          db := db, connOpened := true, connClosed := true }

/-- HTTP method of an `/admin` request. -/
inductive Method
  | get
  | post
  deriving DecidableEq, Repr

/-- The form-encoded body of a `POST /admin` request; each field possibly
absent (`request.form.get` / `request.form[...]`). -/
structure AdminForm where
  admin_password : Option String
  name : Option String
  email : Option String
  password : Option String
  deriving DecidableEq, Repr

/-- A flash message: category (`success` or `error`) and text. -/
structure Flash where
  category : String
  message : String
  deriving DecidableEq, Repr

/-- The observable outcome of one `/admin` request. -/
inductive AdminOutcome
  /-- `get_db_connection()` returned `None`: plain-text 500. -/
  | connError
  /-- wrong admin secret: `redirect(url_for('admin'))`. -/
  | redirectAdmin
  /-- a required form field was absent: `request.form[...]` raises
  `BadRequestKeyError`, which Flask turns into an HTTP 400. -/
  | badRequest
  /-- the rendered admin page, carrying the `(name, email)` listing. -/
  | page (users : List (String × String))
  deriving DecidableEq, Repr

/-- Result of one `admin` handler invocation: outcome, flash messages set
during the request, the table after the request, connection bookkeeping. -/
structure AdminResult where
  outcome : AdminOutcome
  flashes : List Flash
  db : DB
  connOpened : Bool
  connClosed : Bool
  deriving DecidableEq, Repr

/-- `SELECT name, email FROM users ORDER BY created_at DESC`: the rows sorted
newest-first (stable on ties, as returned row order on equal keys is
unspecified in SQL). -/
def usersByCreatedDesc (db : DB) : List UserRow :=
  db.mergeSort (fun a b => b.created_at ≤ a.created_at)

/-- The `(name, email)` listing rendered on the admin page. -/
def listUsers (db : DB) : List (String × String) :=
  (usersByCreatedDesc db).map (fun u => (u.name, u.email))

/-- The `admin` handler (`@app.route('/admin', methods=['GET', 'POST'])`),
translated line by line from `backend.py`.  `ADMIN_PASSWORD` is the
configured admin secret; `newId` and `now` are the `SERIAL` id and
`CURRENT_TIMESTAMP` the database would assign to an inserted row. -/
def admin (connAvail : Bool) (db : DB) (method : Method) (form : AdminForm)
    (ADMIN_PASSWORD : String) (newId now : Nat) : AdminResult :=
  if !connAvail then
    { outcome := .connError, flashes := [], db := db
      connOpened := false, connClosed := false }
  else
    match method with
    | .get =>
      { outcome := .page (listUsers db), flashes := [], db := db
        connOpened := true, connClosed := true }
    | .post =>
      if form.admin_password ≠ some ADMIN_PASSWORD then
        { outcome := .redirectAdmin
          flashes := [⟨"error", "Senha de admin incorreta!"⟩]
          db := db, connOpened := true, connClosed := false }
      else
        match form.name, form.email, form.password with
        | some name, some email, some password =>
          if emailExists db email then
            { outcome := .page (listUsers db)
              flashes := [⟨"error", "O email " ++ email ++ " já existe."⟩]
              db := db, connOpened := true, connClosed := true }
          else
            let row : UserRow :=
              ⟨newId, email, generate_password_hash password, name, none, now⟩
            { outcome := .page (listUsers (db ++ [row]))
              flashes :=
                [⟨"success", "Utilizador " ++ email ++ " criado com sucesso!"⟩]
              db := db ++ [row], connOpened := true, connClosed := true }
        | _, _, _ =>
          { outcome := .badRequest, flashes := [], db := db
            connOpened := true, connClosed := false }

/-! ### Helper lemmas -/

/-- A fresh email is not found in the table. -/
lemma findByEmail_eq_none_of_fresh (db : DB) (e : String)
    (h : emailExists db e = false) : findByEmail db e = none := by
  simp only [emailExists, List.any_eq_false] at h
  simp only [findByEmail, List.find?_eq_none]
  exact h

/-- Lookup after appending a row with a fresh email finds exactly that row. -/
lemma findByEmail_append_fresh (db : DB) (row : UserRow)
    (h : emailExists db row.email = false) :
    findByEmail (db ++ [row]) row.email = some row := by
  have h0 : findByEmail db row.email = none := findByEmail_eq_none_of_fresh db _ h
  simp only [findByEmail] at h0 ⊢
  simp [List.find?_append, h0]

/-- A freshly generated hash verifies against the password it was made from. -/
lemma check_generate (p : String) :
    check_password_hash (generate_password_hash p) p = true := by
  simp [check_password_hash]

/-! ### C1: admin creation followed by login -/

/-- C1 counterexample: with the correct admin secret and the fresh email
`ana@x.com`, admin creation with the empty password succeeds (one row is
committed, success flash set), yet the subsequent `POST /login` with that
same email and password returns 400, not success: Python truthiness makes
`login` reject the empty password as if it were missing. -/
theorem admin_create_then_login_cex :
    (admin true [] .post ⟨some "admin123", some "Ana", some "ana@x.com", some ""⟩
        "admin123" 1 0).flashes =
      [⟨"success", "Utilizador ana@x.com criado com sucesso!"⟩] ∧
    (admin true [] .post ⟨some "admin123", some "Ana", some "ana@x.com", some ""⟩
        "admin123" 1 0).db.length = 1 ∧
    (login true
        (admin true [] .post ⟨some "admin123", some "Ana", some "ana@x.com", some ""⟩
          "admin123" 1 0).db
        ⟨some ⟨some "ana@x.com", some ""⟩⟩).response.status = 400 ∧
    (login true
        (admin true [] .post ⟨some "admin123", some "Ana", some "ana@x.com", some ""⟩
          "admin123" 1 0).db
        ⟨some ⟨some "ana@x.com", some ""⟩⟩).response.success = false := by
  decide

/-- C1 (amended): for every name, every NONEMPTY email not already present,
and every NONEMPTY password, admin creation with the correct secret commits
exactly one new row, and a subsequent `POST /login` with the same email and
password returns 200 with `success = true` (the stored
`generate_password_hash` output verifies under `check_password_hash`). -/
theorem admin_create_then_login (db : DB) (ap nm email password : String)
    (newId now : Nat)
    (hfresh : emailExists db email = false)
    (hemail : email ≠ "") (hpwd : password ≠ "") :
    (admin true db .post ⟨some ap, some nm, some email, some password⟩
        ap newId now).db =
      db ++ [⟨newId, email, generate_password_hash password, nm, none, now⟩] ∧
    (admin true db .post ⟨some ap, some nm, some email, some password⟩
        ap newId now).flashes =
      [⟨"success", "Utilizador " ++ email ++ " criado com sucesso!"⟩] ∧
    (login true
        (admin true db .post ⟨some ap, some nm, some email, some password⟩
          ap newId now).db
        ⟨some ⟨some email, some password⟩⟩).response =
      ⟨200, true, none, some ⟨nm, email, ""⟩⟩ := by
  have hdb :
      (admin true db .post ⟨some ap, some nm, some email, some password⟩
        ap newId now).db =
      db ++ [⟨newId, email, generate_password_hash password, nm, none, now⟩] := by
    simp [admin, hfresh]
  refine ⟨hdb, by simp [admin, hfresh], ?_⟩
  rw [hdb]
  have hfind := findByEmail_append_fresh db
    ⟨newId, email, generate_password_hash password, nm, none, now⟩ hfresh
  simp [login, truthy, hemail, hpwd, hfind, check_generate]

/-- C1 witness: the amended theorem applied at a concrete fresh email and
nonempty password. -/
theorem admin_create_then_login_witness :
    emailExists [] "ana@x.com" = false ∧ "ana@x.com" ≠ "" ∧ "secret1" ≠ "" ∧
    ((admin true [] .post ⟨some "admin123", some "Ana", some "ana@x.com", some "secret1"⟩
        "admin123" 1 0).db =
      [] ++ [⟨1, "ana@x.com", generate_password_hash "secret1", "Ana", none, 0⟩] ∧
    (admin true [] .post ⟨some "admin123", some "Ana", some "ana@x.com", some "secret1"⟩
        "admin123" 1 0).flashes =
      [⟨"success", "Utilizador " ++ "ana@x.com" ++ " criado com sucesso!"⟩] ∧
    (login true
        (admin true [] .post ⟨some "admin123", some "Ana", some "ana@x.com", some "secret1"⟩
          "admin123" 1 0).db
        ⟨some ⟨some "ana@x.com", some "secret1"⟩⟩).response =
      ⟨200, true, none, some ⟨"Ana", "ana@x.com", ""⟩⟩) :=
  ⟨by decide, by decide, by decide,
    admin_create_then_login [] "admin123" "Ana" "ana@x.com" "secret1" 1 0
      (by decide) (by decide) (by decide)⟩

/-! ### C2: wrong admin secret never inserts -/

/-- C2: a `POST /admin` whose submitted `admin_password` differs from the
configured secret (including when the field is absent) never changes the
users table, regardless of the other form fields; when a connection was
available, the handler sets exactly one `error` flash and redirects back to
the admin page. -/
theorem admin_wrong_secret_no_insert (connAvail : Bool) (db : DB)
    (form : AdminForm) (ap : String) (newId now : Nat)
    (h : form.admin_password ≠ some ap) :
    (admin connAvail db .post form ap newId now).db = db ∧
    (connAvail = true →
      (admin connAvail db .post form ap newId now).outcome = .redirectAdmin ∧
      (admin connAvail db .post form ap newId now).flashes =
        [⟨"error", "Senha de admin incorreta!"⟩]) := by
  cases connAvail <;> simp [admin, h]

/-- C2 witness: wrong secret with otherwise well-formed fields leaves the
one-row table unchanged and redirects with the error flash. -/
theorem admin_wrong_secret_no_insert_witness :
    (⟨some "wrong", some "Bea", some "bea@x.com", some "pw"⟩ :
        AdminForm).admin_password ≠ some "admin123" ∧
    ((admin true [⟨1, "ana@x.com", "h", "Ana", none, 0⟩] .post
        ⟨some "wrong", some "Bea", some "bea@x.com", some "pw"⟩
        "admin123" 2 1).db = [⟨1, "ana@x.com", "h", "Ana", none, 0⟩] ∧
    (true = true →
      (admin true [⟨1, "ana@x.com", "h", "Ana", none, 0⟩] .post
        ⟨some "wrong", some "Bea", some "bea@x.com", some "pw"⟩
        "admin123" 2 1).outcome = .redirectAdmin ∧
      (admin true [⟨1, "ana@x.com", "h", "Ana", none, 0⟩] .post
        ⟨some "wrong", some "Bea", some "bea@x.com", some "pw"⟩
        "admin123" 2 1).flashes = [⟨"error", "Senha de admin incorreta!"⟩])) :=
  ⟨by decide,
    admin_wrong_secret_no_insert true [⟨1, "ana@x.com", "h", "Ana", none, 0⟩]
      ⟨some "wrong", some "Bea", some "bea@x.com", some "pw"⟩
      "admin123" 2 1 (by decide)⟩

/-! ### C3: wrong password vs unknown email -/

/-- C3 counterexample: over a table containing `a@x`, the request with the
existing email `a@x` and the (wrong) empty password gets a 400, while the
request with the unknown email `b@x` gets a 401, so the two responses differ:
Python truthiness diverts empty-but-present credentials to the validation
branch before the credential check. -/
theorem login_indistinguishable_cex :
    (findByEmail [⟨1, "a@x", generate_password_hash "s", "Ana", none, 0⟩]
        "a@x").isSome = true ∧
    check_password_hash (generate_password_hash "s") "" = false ∧
    findByEmail [⟨1, "a@x", generate_password_hash "s", "Ana", none, 0⟩]
        "b@x" = none ∧
    (login true [⟨1, "a@x", generate_password_hash "s", "Ana", none, 0⟩]
        ⟨some ⟨some "a@x", some ""⟩⟩).response ≠
      (login true [⟨1, "a@x", generate_password_hash "s", "Ana", none, 0⟩]
        ⟨some ⟨some "b@x", some "w"⟩⟩).response := by
  decide

/-- C3 (amended): for any two `POST /login` requests with NONEMPTY email and
password fields over the same table, one whose email exists but whose
password does not verify and one whose email does not exist, the responses
are identical: both are exactly the 401 generic-credential-failure response,
so the caller cannot tell whether the email exists. -/
theorem login_indistinguishable (db : DB) (e1 p1 e2 p2 : String) (u : UserRow)
    (he1 : e1 ≠ "") (hp1 : p1 ≠ "") (he2 : e2 ≠ "") (hp2 : p2 ≠ "")
    (hfound : findByEmail db e1 = some u)
    (hwrong : check_password_hash u.password_hash p1 = false)
    (habsent : findByEmail db e2 = none) :
    (login true db ⟨some ⟨some e1, some p1⟩⟩).response =
      (login true db ⟨some ⟨some e2, some p2⟩⟩).response ∧
    (login true db ⟨some ⟨some e1, some p1⟩⟩).response =
      ⟨401, false, some "Credenciais inválidas.", none⟩ := by
  simp [login, truthy, he1, hp1, he2, hp2, hfound, hwrong, habsent]

/-- C3 witness: the amended theorem at a concrete table with one user. -/
theorem login_indistinguishable_witness :
    "a@x" ≠ "" ∧ "wrong" ≠ "" ∧ "b@x" ≠ "" ∧ "pw" ≠ "" ∧
    findByEmail [⟨1, "a@x", generate_password_hash "s", "Ana", none, 0⟩]
        "a@x" = some ⟨1, "a@x", generate_password_hash "s", "Ana", none, 0⟩ ∧
    check_password_hash (generate_password_hash "s") "wrong" = false ∧
    findByEmail [⟨1, "a@x", generate_password_hash "s", "Ana", none, 0⟩]
        "b@x" = none ∧
    ((login true [⟨1, "a@x", generate_password_hash "s", "Ana", none, 0⟩]
        ⟨some ⟨some "a@x", some "wrong"⟩⟩).response =
      (login true [⟨1, "a@x", generate_password_hash "s", "Ana", none, 0⟩]
        ⟨some ⟨some "b@x", some "pw"⟩⟩).response ∧
    (login true [⟨1, "a@x", generate_password_hash "s", "Ana", none, 0⟩]
        ⟨some ⟨some "a@x", some "wrong"⟩⟩).response =
      ⟨401, false, some "Credenciais inválidas.", none⟩) :=
  ⟨by decide, by decide, by decide, by decide, by decide, by decide, by decide,
    login_indistinguishable [⟨1, "a@x", generate_password_hash "s", "Ana", none, 0⟩]
      "a@x" "wrong" "b@x" "pw" ⟨1, "a@x", generate_password_hash "s", "Ana", none, 0⟩
      (by decide) (by decide) (by decide) (by decide)
      (by decide) (by decide) (by decide)⟩

/-! ### C4: duplicate email on admin creation -/

/-- C4: if the table already holds a user with the submitted email, admin
creation with the correct secret hits the uniqueness violation: the handler
flashes the duplicate-email error, the transaction is rolled back (the table
after the request equals the table before, so the first user's record is
unchanged), and the page is rendered from the unchanged table. -/
theorem admin_duplicate_email (db : DB) (ap nm email password : String)
    (newId now : Nat) (u : UserRow)
    (hmem : u ∈ db) (hemail : u.email = email) :
    (admin true db .post ⟨some ap, some nm, some email, some password⟩
        ap newId now).db = db ∧
    (admin true db .post ⟨some ap, some nm, some email, some password⟩
        ap newId now).flashes =
      [⟨"error", "O email " ++ email ++ " já existe."⟩] ∧
    (admin true db .post ⟨some ap, some nm, some email, some password⟩
        ap newId now).outcome = .page (listUsers db) := by
  have hex : emailExists db email = true := by
    simp only [emailExists, List.any_eq_true]
    exact ⟨u, hmem, by simp [hemail]⟩
  simp [admin, hex]

/-- C4 witness: re-creating `ana@x.com` leaves the one-row table unchanged
and flashes the duplicate-email error. -/
theorem admin_duplicate_email_witness :
    (⟨1, "ana@x.com", "h", "Ana", none, 0⟩ : UserRow) ∈
      [⟨1, "ana@x.com", "h", "Ana", none, 0⟩] ∧
    (⟨1, "ana@x.com", "h", "Ana", none, 0⟩ : UserRow).email = "ana@x.com" ∧
    ((admin true [⟨1, "ana@x.com", "h", "Ana", none, 0⟩] .post
        ⟨some "admin123", some "Ana2", some "ana@x.com", some "other"⟩
        "admin123" 2 1).db = [⟨1, "ana@x.com", "h", "Ana", none, 0⟩] ∧
    (admin true [⟨1, "ana@x.com", "h", "Ana", none, 0⟩] .post
        ⟨some "admin123", some "Ana2", some "ana@x.com", some "other"⟩
        "admin123" 2 1).flashes =
      [⟨"error", "O email " ++ "ana@x.com" ++ " já existe."⟩] ∧
    (admin true [⟨1, "ana@x.com", "h", "Ana", none, 0⟩] .post
        ⟨some "admin123", some "Ana2", some "ana@x.com", some "other"⟩
        "admin123" 2 1).outcome =
      .page (listUsers [⟨1, "ana@x.com", "h", "Ana", none, 0⟩])) :=
  ⟨by decide, by decide,
    admin_duplicate_email [⟨1, "ana@x.com", "h", "Ana", none, 0⟩]
      "admin123" "Ana2" "ana@x.com" "other" 2 1
      ⟨1, "ana@x.com", "h", "Ana", none, 0⟩ (by decide) (by decide)⟩

/-! ### C5: missing login fields rejected before any database access -/

/-- C5: a `POST /login` whose body is absent, or lacks the `email` key, or
lacks the `password` key, is answered with HTTP 400 and the machine-readable
error `Email e senha são obrigatórios.`; no database connection is opened
and the table is untouched, whatever the connection availability. -/
theorem login_missing_field (connAvail : Bool) (db : DB) (req : LoginRequest)
    (h : req.body = none ∨
      ∃ j, req.body = some j ∧ (j.email = none ∨ j.password = none)) :
    (login connAvail db req).response.status = 400 ∧
    (login connAvail db req).response.error =
      some "Email e senha são obrigatórios." ∧
    (login connAvail db req).connOpened = false ∧
    (login connAvail db req).db = db := by
  rcases h with h | ⟨j, hj, hmiss⟩
  · simp [login, h]
  · rcases hmiss with hm | hm <;> simp [login, hj, hm, truthy]

/-- C5 witness: a body with an email but no password key gets the 400 with
the connection never opened. -/
theorem login_missing_field_witness :
    ((⟨some ⟨some "a@x", none⟩⟩ : LoginRequest).body = none ∨
      ∃ j, (⟨some ⟨some "a@x", none⟩⟩ : LoginRequest).body = some j ∧
        (j.email = none ∨ j.password = none)) ∧
    ((login true [] ⟨some ⟨some "a@x", none⟩⟩).response.status = 400 ∧
    (login true [] ⟨some ⟨some "a@x", none⟩⟩).response.error =
      some "Email e senha são obrigatórios." ∧
    (login true [] ⟨some ⟨some "a@x", none⟩⟩).connOpened = false ∧
    (login true [] ⟨some ⟨some "a@x", none⟩⟩).db = []) :=
  ⟨Or.inr ⟨⟨some "a@x", none⟩, rfl, Or.inr rfl⟩,
    login_missing_field true [] ⟨some ⟨some "a@x", none⟩⟩
      (Or.inr ⟨⟨some "a@x", none⟩, rfl, Or.inr rfl⟩)⟩

/-! ### C6: exhaustive login status codes -/

/-- C6 counterexample: a request whose body has BOTH fields present —
`email = "a@x"`, `password = ""` — is answered with status 400, which is
none of 500, 401, 200: the handler treats a present-but-empty field as
missing (Python truthiness). -/
theorem login_status_cex :
    (login true [] ⟨some ⟨some "a@x", some ""⟩⟩).response.status = 400 ∧
    ¬((login true [] ⟨some ⟨some "a@x", some ""⟩⟩).response.status = 500 ∨
      (login true [] ⟨some ⟨some "a@x", some ""⟩⟩).response.status = 401 ∨
      (login true [] ⟨some ⟨some "a@x", some ""⟩⟩).response.status = 200) := by
  decide

/-- C6 (amended): for every `POST /login` whose email and password fields
are present AND NONEMPTY, the status is exactly 500 when the connection is
unavailable, 200 when the user is found and the password verifies, and 401
otherwise (user not found or hash mismatch); no other outcome exists. -/
theorem login_status_complete (connAvail : Bool) (db : DB) (e p : String)
    (he : e ≠ "") (hp : p ≠ "") :
    (login connAvail db ⟨some ⟨some e, some p⟩⟩).response.status =
      (if connAvail = false then 500
       else
         match findByEmail db e with
         | some u => if check_password_hash u.password_hash p then 200 else 401
         | none => 401) ∧
    ((login connAvail db ⟨some ⟨some e, some p⟩⟩).response.status = 200 ∨
     (login connAvail db ⟨some ⟨some e, some p⟩⟩).response.status = 401 ∨
     (login connAvail db ⟨some ⟨some e, some p⟩⟩).response.status = 500) := by
  cases connAvail with
  | false => simp [login, truthy, he, hp]
  | true =>
    cases hfind : findByEmail db e with
    | none => simp [login, truthy, he, hp, hfind]
    | some u =>
      cases hchk : check_password_hash u.password_hash p <;>
        simp [login, truthy, he, hp, hfind, hchk]

/-- C6 witness: the amended theorem at an unknown email over the empty
table, yielding the 401 branch. -/
theorem login_status_complete_witness :
    "a@x" ≠ "" ∧ "pw" ≠ "" ∧
    ((login true [] ⟨some ⟨some "a@x", some "pw"⟩⟩).response.status =
      (if (true : Bool) = false then 500
       else
         match findByEmail [] "a@x" with
         | some u => if check_password_hash u.password_hash "pw" then 200 else 401
         | none => 401) ∧
    ((login true [] ⟨some ⟨some "a@x", some "pw"⟩⟩).response.status = 200 ∨
     (login true [] ⟨some ⟨some "a@x", some "pw"⟩⟩).response.status = 401 ∨
     (login true [] ⟨some ⟨some "a@x", some "pw"⟩⟩).response.status = 500)) :=
  ⟨by decide, by decide,
    login_status_complete true [] "a@x" "pw" (by decide) (by decide)⟩

/-! ### C7: shape of the successful login response -/

/-- C7: every successful login returns HTTP 200 with body
`{success := true, error := none, user := some {name, email, photo}}` built
only from the stored name, email and photo; the photo field defaults to the
empty string when the stored photo is absent.  `UserProfile` has no
password-hash field, so the hash is structurally never part of the
response. -/
theorem login_success_response (db : DB) (e p : String) (u : UserRow)
    (he : e ≠ "") (hp : p ≠ "")
    (hfound : findByEmail db e = some u)
    (hok : check_password_hash u.password_hash p = true) :
    (login true db ⟨some ⟨some e, some p⟩⟩).response =
      ⟨200, true, none, some ⟨u.name, u.email, u.photo.getD ""⟩⟩ ∧
    (u.photo = none →
      (login true db ⟨some ⟨some e, some p⟩⟩).response.user =
        some ⟨u.name, u.email, ""⟩) := by
  constructor
  · simp [login, truthy, he, hp, hfound, hok]
  · intro hnone
    simp [login, truthy, he, hp, hfound, hok, hnone]

/-- C7 witness: a stored user with absent photo logs in and receives exactly
the 200 response with the empty photo string. -/
theorem login_success_response_witness :
    "ana@x.com" ≠ "" ∧ "secret1" ≠ "" ∧
    findByEmail [⟨1, "ana@x.com", generate_password_hash "secret1", "Ana", none, 0⟩]
        "ana@x.com" =
      some ⟨1, "ana@x.com", generate_password_hash "secret1", "Ana", none, 0⟩ ∧
    check_password_hash (generate_password_hash "secret1") "secret1" = true ∧
    ((login true [⟨1, "ana@x.com", generate_password_hash "secret1", "Ana", none, 0⟩]
        ⟨some ⟨some "ana@x.com", some "secret1"⟩⟩).response =
      ⟨200, true, none, some ⟨"Ana", "ana@x.com", (none : Option String).getD ""⟩⟩ ∧
    ((none : Option String) = none →
      (login true [⟨1, "ana@x.com", generate_password_hash "secret1", "Ana", none, 0⟩]
        ⟨some ⟨some "ana@x.com", some "secret1"⟩⟩).response.user =
        some ⟨"Ana", "ana@x.com", ""⟩)) :=
  ⟨by decide, by decide, by decide, by decide,
    login_success_response
      [⟨1, "ana@x.com", generate_password_hash "secret1", "Ana", none, 0⟩]
      "ana@x.com" "secret1"
      ⟨1, "ana@x.com", generate_password_hash "secret1", "Ana", none, 0⟩
      (by decide) (by decide) (by decide) (by decide)⟩

/-! ### C8: the admin listing -/

/-- C8: with a connection available, the admin page renders exactly
`listUsers db`: the `(name, email)` projection of the stored rows — a
permutation of the whole table, so every stored user appears exactly once —
ordered by `created_at` descending; the projection carries neither password
hashes nor photos. -/
theorem admin_listing (db : DB) (form : AdminForm) (ap : String)
    (newId now : Nat) :
    (admin true db .get form ap newId now).outcome = .page (listUsers db) ∧
    listUsers db = (usersByCreatedDesc db).map (fun u => (u.name, u.email)) ∧
    (usersByCreatedDesc db).Perm db ∧
    List.Pairwise (fun a b => b.created_at ≤ a.created_at)
      (usersByCreatedDesc db) := by
  refine ⟨by simp [admin], rfl, List.mergeSort_perm db _, ?_⟩
  have h := @List.sorted_mergeSort UserRow
    (fun a b : UserRow => decide (b.created_at ≤ a.created_at))
    (by intro a b c hab hbc; simp at hab hbc ⊢; omega)
    (by intro a b; simp; omega) db
  exact h.imp (by intro a b hab; simpa using hab)

/-! ### C9: connection release -/

/-- C9 counterexample: on a `POST /admin` with the wrong admin secret, the
handler acquires a connection and then returns the redirect WITHOUT calling
`conn.close()` — the connection outlives the request. -/
theorem conn_released_cex :
    (admin true [] .post ⟨some "wrong", some "A", some "a@x", some "p"⟩
        "admin123" 1 0).connOpened = true ∧
    (admin true [] .post ⟨some "wrong", some "A", some "a@x", some "p"⟩
        "admin123" 1 0).connClosed = false := by
  decide

/-- C9 (amended): the `login` handler closes its connection on every path on
which one was acquired; the `admin` handler closes its connection on every
such path EXCEPT the wrong-admin-secret redirect and the
missing-form-field 400 abort, where the connection is leaked. -/
theorem conn_released :
    (∀ (connAvail : Bool) (db : DB) (req : LoginRequest),
      (login connAvail db req).connOpened = true →
      (login connAvail db req).connClosed = true) ∧
    (∀ (connAvail : Bool) (db : DB) (method : Method) (form : AdminForm)
        (ap : String) (newId now : Nat),
      (admin connAvail db method form ap newId now).outcome ≠ .redirectAdmin →
      (admin connAvail db method form ap newId now).outcome ≠ .badRequest →
      (admin connAvail db method form ap newId now).connOpened = true →
      (admin connAvail db method form ap newId now).connClosed = true) := by
  constructor
  · intro connAvail db req
    unfold login
    split
    · simp
    · split
      · simp
      · split
        · simp
        · split <;> first | simp | split <;> simp
  · intro connAvail db method form ap newId now
    unfold admin
    split
    · simp
    · split
      · simp
      · split
        · simp
        · split
          · split <;> simp
          · simp

/-- C9 witness: both conjuncts of the amended theorem applied at concrete
requests: a valid login and a `GET /admin`, each closing its connection. -/
theorem conn_released_witness :
    ((login true [] ⟨some ⟨some "a@x", some "pw"⟩⟩).connOpened = true →
      (login true [] ⟨some ⟨some "a@x", some "pw"⟩⟩).connClosed = true) ∧
    ((admin true [] .get ⟨none, none, none, none⟩ "admin123" 1 0).connClosed
      = true) :=
  ⟨conn_released.1 true [] ⟨some ⟨some "a@x", some "pw"⟩⟩,
    conn_released.2 true [] .get ⟨none, none, none, none⟩ "admin123" 1 0
      (by decide) (by decide) (by decide)⟩

/-! ### C10: only a correctly authorized admin POST mutates the table -/

/-- C10: the `login` handler never changes the users table; a `GET /admin`
never changes it; and whenever a `POST /admin` changes it, the submitted
admin secret was exactly the configured one. -/
theorem table_frame :
    (∀ (connAvail : Bool) (db : DB) (req : LoginRequest),
      (login connAvail db req).db = db) ∧
    (∀ (connAvail : Bool) (db : DB) (form : AdminForm) (ap : String)
        (newId now : Nat),
      (admin connAvail db .get form ap newId now).db = db) ∧
    (∀ (connAvail : Bool) (db : DB) (form : AdminForm) (ap : String)
        (newId now : Nat),
      (admin connAvail db .post form ap newId now).db ≠ db →
      form.admin_password = some ap) := by
  refine ⟨?_, ?_, ?_⟩
  · intro connAvail db req
    unfold login
    split
    · simp
    · split
      · simp
      · split
        · simp
        · split <;> first | simp | split <;> simp
  · intro connAvail db form ap newId now
    cases connAvail <;> simp [admin]
  · intro connAvail db form ap newId now hne
    by_contra hsec
    apply hne
    cases connAvail <;> simp [admin, hsec]

/-- C10 witness: a correctly authorized `POST /admin` over the empty table
does change it, and the theorem recovers that its secret matched. -/
theorem table_frame_witness :
    (admin true [] .post ⟨some "admin123", some "Ana", some "a@x", some "pw"⟩
        "admin123" 1 0).db ≠ [] ∧
    (⟨some "admin123", some "Ana", some "a@x", some "pw"⟩ :
        AdminForm).admin_password = some "admin123" :=
  ⟨by decide,
    table_frame.2.2 true [] ⟨some "admin123", some "Ana", some "a@x", some "pw"⟩
      "admin123" 1 0 (by decide)⟩

end DashFinance
